import Mathlib

/-!
Verification of the manifest-driven acquisition-and-placement pipeline in
`installer.py` (offinstaller).  The Python source is shallowly embedded:
pure helpers become Lean functions on `String`/`List Char`, the JSON-like
manifest documents become the inductive `JVal`, the filesystem becomes an
explicit map from paths to optional byte contents, and network fetches
become explicit outcome values.  Each claim about the program is stated and
settled as a theorem over these definitions.
-/

namespace OffInstaller

/-- JSON-like values: the shape of a parsed `modrinth.index.json` manifest
and of the version records handled by `installer.py`. -/
inductive JVal where
  | jnull
  | jstr (s : String)
  | jnum (n : Int)
  | jbool (b : Bool)
  | jarr (xs : List JVal)
  | jobj (kvs : List (String × JVal))

/-- Python truthiness on JSON-like values: `None`, `""`, `0`, `[]`, `{}` and
`False` are falsy, everything else is truthy (used by `if not url:` and by
`x or y` in the source). -/
def pyTruthy : JVal → Bool
  | .jnull => false
  | .jstr s => !(s == "")
  | .jnum n => !(n == 0)
  | .jbool b => b
  | .jarr xs => !xs.isEmpty
  | .jobj kvs => !kvs.isEmpty

/-- Python `x or y` on JSON-like values: the first truthy operand wins. -/
def pyOr (a b : JVal) : JVal := if pyTruthy a then a else b

/-- Python `d.get(k)` on a dict-like value: the value at the first matching key, or
`None` when the key is absent or the value is not an object. -/
def jget (v : JVal) (k : String) : JVal :=
  match v with
  | .jobj kvs => (((kvs.find? (fun kv => kv.1 == k)).map Prod.snd).getD .jnull)
  | _ => .jnull

/-- The elements of a JSON array, and `[]` for any non-array value
(embeds `manifest.get("files", [])` followed by iteration). -/
def jarrItems : JVal → List JVal
  | .jarr xs => xs
  | _ => []

/-- The text of a JSON string.  Non-string values are coerced to `""`; on
such values the Python source would raise a type error, a region of the
input space none of the claims exercises. -/
def strVal : JVal → String
  | .jstr s => s
  | _ => ""

/-- Split a character list at every occurrence of `sep`, Python
`str.split(sep)` style: `splitOnChar sep [] = [[]]` and separators at the
ends produce empty groups. -/
def splitOnChar (sep : Char) : List Char → List (List Char)
  | [] => [[]]
  | c :: rest =>
      if c = sep then [] :: splitOnChar sep rest
      else
        match splitOnChar sep rest with
        | g :: gs => (c :: g) :: gs
        | [] => [[c]]

/-- POSIX `os.path.basename`: the part of the path after the last slash. -/
def os_path_basename (s : String) : String :=
  String.mk ((splitOnChar '/' s.data).getLast?.getD [])

/-- Embeds `rel.lstrip("/\\")` from `iter_manifest_files`: drop every leading
forward or backward slash. -/
def lstrip_seps (s : String) : String :=
  String.mk (s.data.dropWhile (fun c => c == '/' || c == '\\'))

/-- POSIX `os.path.join a b` as used by the source: `b` wins when absolute,
otherwise the pieces are glued with a single slash. -/
def os_path_join (a b : String) : String :=
  if b.data.head? == some '/' then b
  else if a == "" then b
  else if a.data.getLast? == some '/' then a ++ b
  else a ++ "/" ++ b

/-- Normalize an absolute POSIX path into its list of segments, resolving
`.` and `..` segments (the usual meaning of a path on disk; the Python
source never performs this normalization, which is what claim C1 probes). -/
def normalize_path (p : String) : List String :=
  (splitOnChar '/' p.data).foldl
    (fun acc seg =>
      if seg = [] then acc
      else if seg = ['.'] then acc
      else if seg = ['.', '.'] then acc.dropLast
      else acc ++ [String.mk seg])
    []

/-- A path lies inside a root directory when the normalized root segments
are an initial segment of the normalized path segments. -/
def path_within (root p : String) : Bool :=
  (normalize_path root).isPrefixOf (normalize_path p)

/-- Length of the common initial run of two segment lists (used by the
embedding of `os.path.relpath`). -/
def commonPrefixLen : List String → List String → Nat
  | a :: as, b :: bs => if a = b then commonPrefixLen as bs + 1 else 0
  | _, _ => 0

/-- Glue path segments with single slashes. -/
def joinWithSlash : List String → String
  | [] => ""
  | [x] => x
  | x :: xs => x ++ "/" ++ joinWithSlash xs

/-- POSIX `os.path.relpath p start` for the absolute paths the source
passes it: climb out of the uncommon part of `start` with `..` segments and
descend into the uncommon part of `p`. -/
def os_path_relpath (p start : String) : String :=
  let ps := normalize_path p
  let ss := normalize_path start
  let k := commonPrefixLen ps ss
  let parts := List.replicate (ss.length - k) ".." ++ ps.drop k
  if parts.isEmpty then "." else joinWithSlash parts

/-- A log event as appended by `log(level, message)` in the source:
severity level paired with the message (timestamps elided). -/
abbrev LogEntry := String × String

/-- Embeds `pluralize` from the source. -/
def pluralize (count : Nat) (singular : String) (plural : Option String) : String :=
  if count = 1 then singular
  else match plural with
    | some p => p
    | none => singular ++ "s"

/-- Embeds `format_received_message` from the source. -/
def format_received_message (success total : Nat) (item_name : String) : List String :=
  let failed := total - success
  ["Received " ++ toString success ++ "/" ++ toString total ++ " "
    ++ pluralize total item_name none]
  ++ (if failed > 0 then
        ["Failed to receive " ++ toString failed ++ " " ++ pluralize failed item_name none]
      else [])

/-- Embeds `format_copied_message` from the source. -/
def format_copied_message (success total : Nat) (item_name : String) : List String :=
  let failed := total - success
  ["Copied " ++ toString success ++ "/" ++ toString total ++ " "
    ++ pluralize total item_name none]
  ++ (if failed > 0 then
        ["Failed to copy " ++ toString failed ++ " " ++ pluralize failed item_name none]
      else [])

/-- The URL-resolution step of `iter_manifest_files`: the first element of a
non-empty `downloads` list (its `url` field when it is an object, the
element itself otherwise), and where that is not truthy the descriptor
field `url`. -/
def resolve_url (f : JVal) : JVal :=
  pyOr
    (match jget f "downloads" with
     | .jarr (dl :: _) =>
         (match dl with
          | .jobj _ => jget dl "url"
          | _ => dl)
     | _ => .jnull)
    (jget f "url")

/-- The relative destination of a manifest file descriptor, from
`iter_manifest_files`: `f.get("path") or f.get("filename") or
os.path.basename(url)`. -/
def manifest_rel (f url : JVal) : String :=
  strVal (pyOr (jget f "path")
    (pyOr (jget f "filename") (JVal.jstr (os_path_basename (strVal url)))))

/-- Embeds `iter_manifest_files(manifest, base_dest)` from the source: one
(url, destination) pair per file descriptor that resolves to a truthy URL;
descriptors without one contribute nothing. -/
def iter_manifest_files (manifest : JVal) (base_dest : String) : List (JVal × String) :=
  (jarrItems (jget manifest "files")).filterMap (fun f =>
    if pyTruthy (resolve_url f) then
      some (resolve_url f, os_path_join base_dest (lstrip_seps (manifest_rel f (resolve_url f))))
    else none)

/-- Modelled from the claim wording (C7), independently of the source: take
the first element of a non-empty downloads list, reading its `url` field
when that element is an object and the element itself otherwise; fall back
to the single `url` field; yield nothing when neither form gives a URL. -/
def resolve_url_claim (f : JVal) : Option JVal :=
  if pyTruthy
      (match jget f "downloads" with
       | .jarr (dl :: _) =>
           (match dl with
            | .jobj _ => jget dl "url"
            | _ => dl)
       | _ => .jnull) then
    some
      (match jget f "downloads" with
       | .jarr (dl :: _) =>
           (match dl with
            | .jobj _ => jget dl "url"
            | _ => dl)
       | _ => .jnull)
  else if pyTruthy (jget f "url") then some (jget f "url")
  else none

/-- The skip notice emitted by `download_and_place` for an entry whose
destination already exists. -/
def skip_log (dest target : String) : LogEntry :=
  ("USER", "Skipping existing " ++ os_path_relpath target dest)

/-- The planning loop of `download_and_place`: walk the manifest entries in
order; with `overwrite` false an entry whose destination path exists is
dropped and one skip notice is logged, every other entry is kept.
`pathExists` embeds `os.path.exists`. -/
def plan_go (overwrite : Bool) (pathExists : String → Bool) (dest : String) :
    List (JVal × String) → List (JVal × String) × List LogEntry
  | [] => ([], [])
  | ut :: rest =>
      if !overwrite && pathExists ut.2 then
        ((plan_go overwrite pathExists dest rest).1,
         skip_log dest ut.2 :: (plan_go overwrite pathExists dest rest).2)
      else
        (ut :: (plan_go overwrite pathExists dest rest).1,
         (plan_go overwrite pathExists dest rest).2)

/-- The plan-building step of `download_and_place(manifest, dest, td,
overwrite)`: the kept (url, target) pairs together with the skip notices. -/
def download_and_place_plan (manifest : JVal) (dest : String) (overwrite : Bool)
    (pathExists : String → Bool) : List (JVal × String) × List LogEntry :=
  plan_go overwrite pathExists dest (iter_manifest_files manifest dest)

/-- File contents as a byte list. -/
abbrev Bytes := List Nat

/-- The local filesystem, as a map from paths to the contents of the file
there, `none` when no file exists at the path. -/
abbrev FS := String → Option Bytes

/-- Writing a file replaces whatever was at the path. -/
def fs_write (fs : FS) (path : String) (content : Bytes) : FS :=
  fun p => if p = path then some content else fs p

/-- The possible outcomes of one streamed fetch in the download loops of
`download_with_cumulative_fallback` and `download_with_rich`:
`connectFail` models `requests.get` or `raise_for_status` raising before
the destination is opened; `midFail written` models the stream raising
after the listed chunks were already written to the opened file;
`fetched chunks` models a complete transfer. -/
inductive FetchOutcome where
  | connectFail
  | midFail (written : List Bytes)
  | fetched (chunks : List Bytes)

/-- One iteration of the download loop, acting on the filesystem: the
destination is opened (truncated) and written chunk by chunk; an exception
is caught by the `except` around the transfer, so a mid-stream failure
leaves the partially written file in place. -/
def download_one (fs : FS) (target : String) (o : FetchOutcome) : FS × Bool :=
  match o with
  | .connectFail => (fs, false)
  | .midFail written => (fs_write fs target written.flatten, false)
  | .fetched chunks => (fs_write fs target chunks.flatten, true)

/-- POSIX `os.path.dirname`: the path up to (excluding) the last slash;
`""` for a path without a slash, `"/"` when the last slash is leading. -/
def os_path_dirname (p : String) : String :=
  match (splitOnChar '/' p.data).dropLast with
  | [] => ""
  | [[]] => "/"
  | segs => joinWithSlash (segs.map String.mk)

/-- Raw outcome of one run of a download loop: `completed` when the loop
ran to its end — only then are the (success, failure) counts reported via
`format_received_message` — and `aborted` when an exception escaped the
loop, in which case nothing is reported and the remaining entries were
never attempted. -/
inductive DownloadResult where
  | completed (fs : FS) (success failed : Nat)
  | aborted (fs : FS)

/-- The sequential download loop shared by
`download_with_cumulative_fallback` and `download_with_rich`.  Each
iteration first runs `ensure_dir(os.path.dirname(t))`, which sits outside
the per-entry exception handler: when it raises (modelled by `mkdirOk`
being false on the parent directory, e.g. a regular file occupying that
path or a permission error) the exception propagates and the loop is
abandoned with no counts reported.  Otherwise the transfer runs inside
the handler: a success bumps the success count, a caught failure bumps
the failure count, and the loop continues with the next entry. -/
def download_loop (fetch : JVal → FetchOutcome) (mkdirOk : String → Bool) :
    FS × Nat × Nat → List (JVal × String) → DownloadResult
  | (fs, s, f), [] => .completed fs s f
  | (fs, s, f), ut :: rest =>
      if mkdirOk (os_path_dirname ut.2) then
        if (download_one fs ut.2 (fetch ut.1)).2 then
          download_loop fetch mkdirOk ((download_one fs ut.2 (fetch ut.1)).1, s + 1, f) rest
        else
          download_loop fetch mkdirOk ((download_one fs ut.2 (fetch ut.1)).1, s, f + 1) rest
      else .aborted fs

/-- Execute a transfer plan against a filesystem. -/
def download_files (fs : FS) (plan : List (JVal × String))
    (fetch : JVal → FetchOutcome) (mkdirOk : String → Bool) : DownloadResult :=
  download_loop fetch mkdirOk (fs, 0, 0) plan

/-- The counts the loop reports at its end: present only when the loop
completed; an escaped exception reaches the flow level and nothing is
logged for the batch. -/
def reported_counts : DownloadResult → Option (Nat × Nat)
  | .completed _ s f => some (s, f)
  | .aborted _ => none

/-- The filesystem state left behind by a download run. -/
def result_fs : DownloadResult → FS
  | .completed fs _ _ => fs
  | .aborted fs => fs

/-- Aggregated result of `apply_overrides_with_rich`: copy counts, the
destination paths actually written, and the emitted log events. -/
structure CopyResult where
  copied : Nat
  failed : Nat
  writes : List String
  logs : List LogEntry

/-- The per-file copy loop of `apply_overrides_with_rich` (identical in its
Rich and fallback branches): each file under `overrides/` is copied to the
corresponding relative path under `dest`; a per-file failure is caught and
counted and the walk continues.  `copyOk` embeds whether `shutil.copy2`
succeeds for a given relative path. -/
def copy_loop (dest : String) (copyOk : String → Bool) :
    List String → Nat × Nat × List String
  | [] => (0, 0, [])
  | rel :: rest =>
      if copyOk rel then
        ((copy_loop dest copyOk rest).1 + 1,
         (copy_loop dest copyOk rest).2.1,
         os_path_join dest rel :: (copy_loop dest copyOk rest).2.2)
      else
        ((copy_loop dest copyOk rest).1,
         (copy_loop dest copyOk rest).2.1 + 1,
         (copy_loop dest copyOk rest).2.2)

/-- Embeds `apply_overrides_with_rich(td, dest)` from the source.  The extracted
archive is abstracted to `overridesTree`: `none` when `td/overrides` is not
a directory, `some rels` for the relative paths of the regular files found
by the walk.  With no overrides directory the function logs one notice and
returns at once, touching nothing. -/
def apply_overrides_with_rich (overridesTree : Option (List String)) (dest : String)
    (copyOk : String → Bool) : CopyResult :=
  match overridesTree with
  | none =>
      { copied := 0, failed := 0, writes := [],
        logs := [("COMMENT", "No overrides directory present")] }
  | some rels =>
      { copied := (copy_loop dest copyOk rels).1,
        failed := (copy_loop dest copyOk rels).2.1,
        writes := (copy_loop dest copyOk rels).2.2,
        logs := ("COMMENT", "Parsing and moving modpack: " ++ toString rels.length ++ " "
                   ++ pluralize rels.length "file" none)
                :: (format_copied_message (copy_loop dest copyOk rels).1
                      ((copy_loop dest copyOk rels).1 + (copy_loop dest copyOk rels).2.1)
                      "file").map
                    (fun m => (if (copy_loop dest copyOk rels).2.1 = 0 then "OK" else "WARN", m)) }

/-- A severity counts as an error for the purposes of the claims when it is
`ERROR` or `CRITICAL`; the other levels used by the source
(`OK`, `WARN`, `COMMENT`, `USER`) are notices. -/
def is_error_level (lvl : String) : Bool := lvl == "ERROR" || lvl == "CRITICAL"

/-- What became of the scratch directory and the run by the end of a flow. -/
structure FlowTail where
  tdRemovalAttempted : Bool
  tdRemoved : Bool
  reachedSummary : Bool
  logs : List LogEntry

/-- The tail of `parse_and_download_flow` (and, with the same control
shape, of `step_install_flow`) from the point where the scratch directory
`td` has been created by `tempfile.mkdtemp()`.  Stage outcomes are inputs:
`extractOk` — the zip extraction, `manifestFound` — the recursive manifest
search, `rmTdOk` — `shutil.rmtree(td, ignore_errors=True)`, `rmPkgOk` —
`os.remove(tmp_pkg)`.  A failed stage logs and jumps to
`final_summary_and_save()`, skipping everything after it; intermediate
download and placement logs are elided as they do not bear on cleanup. -/
def parse_flow_from_extract (extractOk manifestFound rmTdOk rmPkgOk : Bool) : FlowTail :=
  if extractOk = false then
    { tdRemovalAttempted := false, tdRemoved := false, reachedSummary := true,
      logs := [("ERROR", "Extract error")] }
  else if manifestFound = false then
    { tdRemovalAttempted := false, tdRemoved := false, reachedSummary := true,
      logs := [("OK", "Extraction complete"), ("CRITICAL", "No manifest found in package")] }
  else
    { tdRemovalAttempted := true, tdRemoved := rmTdOk, reachedSummary := true,
      logs := [("OK", "Extraction complete"), ("OK", "All files downloaded and organized")]
              ++ (if rmPkgOk then []
                  else [("WARN", "Could not remove temporary package")]) }

/-- Outcome of one `run_fabric_installer` call and of its caller
`step_install_flow` around it. -/
structure BootstrapRun where
  childInvoked : Bool
  proceededToInstall : Bool
  logs : List LogEntry

/-- Embeds `run_fabric_installer(mc, loader_version, mc_version)` from the source.
`dlRaises` — whether `download_with_rich` raises an exception (only
possible outside its per-file handler, e.g. in `ensure_dir`); a plain fetch
failure is caught inside `download_with_rich`, which then returns normally,
so it is a separate input `dlFetchOk`.  `childExitZero` — whether the
spawned installer process exits with code 0; a non-zero exit raises
`CalledProcessError`, which is caught and logged.  Every branch returns to
the caller, which then goes on to `download_and_place`
(`proceededToInstall`). -/
def run_fabric_installer (dlRaises dlFetchOk childExitZero : Bool) : BootstrapRun :=
  if dlRaises then
    { childInvoked := false, proceededToInstall := true,
      logs := [("USER", "Downloading Fabric installer"),
               ("ERROR", "Failed to download Fabric installer")] }
  else
    { childInvoked := true, proceededToInstall := true,
      logs := [("USER", "Downloading Fabric installer")]
              ++ (format_received_message (if dlFetchOk then 1 else 0) 1 "file").map
                   (fun m => (if dlFetchOk then "OK" else "WARN", m))
              ++ [("USER", "Running Fabric installer")]
              ++ (if childExitZero then [("OK", "Fabric loader installed successfully")]
                  else [("ERROR", "Fabric installer failed")]) }

/-- The characters removed by `sanitize_name`, the raw string
`<>:"/\|?*` of the source. -/
def bad_chars : List Char := ['<', '>', ':', '"', '/', '\\', '|', '?', '*']

/-- Python `str.isspace` membership for the characters stripped by the
default `str.strip()`. -/
def py_isspace (c : Char) : Bool :=
  c = ' ' || c = '\t' || c = '\n' || c = '\r' || c = '\x0b' || c = '\x0c'

/-- Python `str.strip()` with no argument: drop leading and trailing
whitespace. -/
def py_strip (s : String) : String :=
  String.mk (((s.data.dropWhile py_isspace).reverse.dropWhile py_isspace).reverse)

/-- Embeds `sanitize_name` from the source: drop every character of `bad_chars`,
then strip surrounding whitespace. -/
def sanitize_name (name : String) : String :=
  py_strip (String.mk (name.data.filter (fun c => !(bad_chars.contains c))))

/-- Python `str.lower()` restricted to its ASCII behaviour, the only part
the source compares against (`beta`, `alpha`). -/
def str_lower (s : String) : String := String.mk (s.data.map Char.toLower)

/-- Embeds `format_modpack_version` from the source: `unknown` for an empty
version, otherwise the part after the last `+` (stripped), or the whole
string stripped. -/
def format_modpack_version (version_number : String) : String :=
  if version_number = "" then "unknown"
  else if version_number.data.contains '+' then
    py_strip (String.mk ((splitOnChar '+' version_number.data).getLast?.getD []))
  else py_strip version_number

/-- Embeds `build_display_name` from the source: compose the display string and
pass it through `sanitize_name`. -/
def build_display_name (version_number game_versions version_type : String) : String :=
  sanitize_name
    ((("OptiFine for Fabric " ++ format_modpack_version version_number
        ++ " [Minecraft " ++ game_versions ++ "]"))
     ++ (if str_lower version_type = "beta" then " [Beta]"
         else if str_lower version_type = "alpha" then " [Alpha]"
         else ""))

/-- A string has no leading whitespace when its first character, if any, is
not whitespace. -/
def no_leading_space (s : String) : Bool :=
  s.data.head?.all (fun c => !(py_isspace c))

/-- A string has no trailing whitespace when its last character, if any, is
not whitespace. -/
def no_trailing_space (s : String) : Bool :=
  s.data.getLast?.all (fun c => !(py_isspace c))

/-- A manifest whose single file descriptor carries a `..` traversal
segment in its relative path. -/
def escape_manifest : JVal :=
  .jobj [("files", .jarr [
    .jobj [("path", .jstr "../evil.jar"),
           ("url", .jstr "https://mods.example/evil.jar")]])]

/-- A small well-formed manifest with one `url`-style and one
`downloads`-style file descriptor. -/
def sample_manifest : JVal :=
  .jobj [("files", .jarr [
    .jobj [("path", .jstr "mods/a.jar"), ("url", .jstr "https://mods.example/a.jar")],
    .jobj [("path", .jstr "mods/b.jar"),
           ("downloads", .jarr [.jobj [("url", .jstr "https://mods.example/b.jar")]])]])]

lemma plan_go_false_fst (pathExists : String → Bool) (dest : String)
    (l : List (JVal × String)) :
    (plan_go false pathExists dest l).1 = l.filter (fun ut => !(pathExists ut.2)) := by
  induction l with
  | nil => rfl
  | cons ut rest ih =>
      by_cases h : pathExists ut.2
      · simp [plan_go, h, ih]
      · simp [plan_go, h, ih]

lemma plan_go_false_snd (pathExists : String → Bool) (dest : String)
    (l : List (JVal × String)) :
    (plan_go false pathExists dest l).2
      = (l.filter (fun ut => pathExists ut.2)).map (fun ut => skip_log dest ut.2) := by
  induction l with
  | nil => rfl
  | cons ut rest ih =>
      by_cases h : pathExists ut.2
      · simp [plan_go, h, ih]
      · simp [plan_go, h, ih]

lemma download_loop_counts (fetch : JVal → FetchOutcome) (mkdirOk : String → Bool) :
    ∀ (l : List (JVal × String)),
      (∀ ut ∈ l, mkdirOk (os_path_dirname ut.2) = true) →
      ∀ (fs : FS) (s f : Nat),
        (reported_counts (download_loop fetch mkdirOk (fs, s, f) l)).map
            (fun sf => sf.1 + sf.2)
          = some (s + f + l.length) := by
  intro l
  induction l with
  | nil => intro _ fs s f; simp [download_loop, reported_counts]
  | cons ut rest ih =>
      intro h fs s f
      have hd : mkdirOk (os_path_dirname ut.2) = true := h ut (List.mem_cons_self ut rest)
      have hr : ∀ u ∈ rest, mkdirOk (os_path_dirname u.2) = true :=
        fun u hu => h u (List.mem_cons_of_mem ut hu)
      rw [download_loop, if_pos hd]
      by_cases hk : (download_one fs ut.2 (fetch ut.1)).2
      · rw [if_pos hk, ih hr]
        congr 1
        simp [List.length_cons]
        omega
      · rw [if_neg hk, ih hr]
        congr 1
        simp [List.length_cons]
        omega

lemma pyOr_option {β : Type} (u0 u1 : JVal) (g : JVal → β) :
    (if pyTruthy (pyOr u0 u1) then some (g (pyOr u0 u1)) else none)
      = (if pyTruthy u0 then some u0
         else if pyTruthy u1 then some u1 else none).map g := by
  unfold pyOr
  by_cases h0 : pyTruthy u0 <;> by_cases h1 : pyTruthy u1 <;> simp [h0, h1]

/-- C1: the claim states that every (url, destination) pair produced by the
plan-building step resolves inside the destination root, even for manifest
paths with `..` segments.  The source performs no such normalization: on a
manifest whose file path is `../evil.jar` and destination root `/dest`,
`iter_manifest_files` yields the destination `/dest/../evil.jar`, which
resolves to `/evil.jar`, outside `/dest`.  This contradicts the claim at a
concrete input, as the spec itself flags (a latent defect in the source). -/
theorem c1_traversal_escapes_root :
    ((iter_manifest_files escape_manifest "/dest").map Prod.snd = ["/dest/../evil.jar"])
    ∧ ((iter_manifest_files escape_manifest "/dest").map (fun ut => strVal ut.1)
        = ["https://mods.example/evil.jar"])
    ∧ (normalize_path "/dest/../evil.jar" = ["evil.jar"])
    ∧ (path_within "/dest" "/dest/../evil.jar" = false) := by
  refine ⟨?_, ?_, ?_, ?_⟩ <;> decide

/-- C2: with `overwrite = false`, the planning step of `download_and_place`
keeps exactly the manifest entries whose destination path does not exist,
and emits exactly one skip notice per excluded entry (namely the entries
whose destination path exists), in order. -/
theorem c2_skip_existing_policy (manifest : JVal) (dest : String)
    (pathExists : String → Bool) :
    ((download_and_place_plan manifest dest false pathExists).1
      = (iter_manifest_files manifest dest).filter (fun ut => !(pathExists ut.2)))
    ∧ ((download_and_place_plan manifest dest false pathExists).2
      = ((iter_manifest_files manifest dest).filter (fun ut => pathExists ut.2)).map
          (fun ut => skip_log dest ut.2)) :=
  ⟨plan_go_false_fst pathExists dest _, plan_go_false_snd pathExists dest _⟩

/-- C3 counterexample: the claim states that execution attempts every
entry and always reports counts summing to the plan length.  But
`ensure_dir(os.path.dirname(t))` sits outside the per-entry exception
handler: on a two-entry plan where the first entry downloads successfully
and directory creation then fails for the second entry's parent, the
exception propagates — the second entry is never attempted and no counts
are reported at all, despite one completed transfer. -/
theorem c3_counterexample_mkdir_failure_aborts :
    (reported_counts (download_files (fun _ => none)
        [(JVal.jstr "https://mods.example/a.jar", "/a/x.jar"),
         (JVal.jstr "https://mods.example/b.jar", "/b/y.jar")]
        (fun _ => FetchOutcome.fetched [[7]])
        (fun d => d == "/a")) = none)
    ∧ (result_fs (download_files (fun _ => none)
        [(JVal.jstr "https://mods.example/a.jar", "/a/x.jar"),
         (JVal.jstr "https://mods.example/b.jar", "/b/y.jar")]
        (fun _ => FetchOutcome.fetched [[7]])
        (fun d => d == "/a")) "/a/x.jar" = some [7])
    ∧ (result_fs (download_files (fun _ => none)
        [(JVal.jstr "https://mods.example/a.jar", "/a/x.jar"),
         (JVal.jstr "https://mods.example/b.jar", "/b/y.jar")]
        (fun _ => FetchOutcome.fetched [[7]])
        (fun d => d == "/a")) "/b/y.jar" = none) := by
  refine ⟨?_, ?_, ?_⟩ <;> decide

/-- C3 (amended): provided directory creation succeeds for the parent
directory of every entry — `ensure_dir` being the one per-entry step
outside the exception handler — execution attempts every entry regardless
of earlier outcomes, each entry's download or write failure is caught and
counted rather than propagated, and the reported success and failure
counts sum to the plan's entry count, whatever the filesystem and the
fetch outcomes. -/
theorem c3_counts_sum_when_dirs_ok (fs : FS) (plan : List (JVal × String))
    (fetch : JVal → FetchOutcome) (mkdirOk : String → Bool)
    (h : ∀ ut ∈ plan, mkdirOk (os_path_dirname ut.2) = true) :
    (reported_counts (download_files fs plan fetch mkdirOk)).map (fun sf => sf.1 + sf.2)
      = some plan.length := by
  have hc := download_loop_counts fetch mkdirOk plan h fs 0 0
  simpa [download_files] using hc

/-- C3 witness: a concrete two-entry plan, one transfer succeeding and one
failing, with directory creation succeeding throughout — counts are
reported and sum to the plan length 2. -/
theorem c3_counts_sum_when_dirs_ok_witness :
    (reported_counts (download_files (fun _ => none)
        [(JVal.jstr "https://mods.example/a.jar", "/dest/a.jar"),
         (JVal.jstr "https://mods.example/b.jar", "/dest/b.jar")]
        (fun u => if strVal u == "https://mods.example/a.jar"
                  then FetchOutcome.fetched [[7]] else FetchOutcome.connectFail)
        (fun _ => true))).map (fun sf => sf.1 + sf.2)
      = some 2 :=
  c3_counts_sum_when_dirs_ok (fun _ => none)
    [(JVal.jstr "https://mods.example/a.jar", "/dest/a.jar"),
     (JVal.jstr "https://mods.example/b.jar", "/dest/b.jar")]
    (fun u => if strVal u == "https://mods.example/a.jar"
              then FetchOutcome.fetched [[7]] else FetchOutcome.connectFail)
    (fun _ => true)
    (fun _ _ => rfl)

/-- C4: the claim states that a write failure leaves the destination file
complete or removed.  The source catches the exception of a mid-stream
failure without any cleanup: on a plan with one entry whose stream fails
after the chunk `[1, 2]` was written — directory creation succeeding along
this trace, as in the source where the destination directory exists — the
transfer is counted failed, yet the destination file remains on disk
holding exactly the truncated content `[1, 2]` — contradicting the claim,
as the spec itself flags (a defect in the source). -/
theorem c4_truncated_file_left_behind :
    (result_fs (download_files (fun _ => none)
        [(JVal.jstr "https://mods.example/big.jar", "/dest/big.jar")]
        (fun _ => FetchOutcome.midFail [[1, 2]]) (fun _ => true))
        "/dest/big.jar" = some [1, 2])
    ∧ (reported_counts (download_files (fun _ => none)
        [(JVal.jstr "https://mods.example/big.jar", "/dest/big.jar")]
        (fun _ => FetchOutcome.midFail [[1, 2]]) (fun _ => true)) = some (0, 1)) := by
  refine ⟨?_, ?_⟩ <;> decide

/-- C5 counterexample: on a run where extraction succeeds but no manifest
is found — a failure of a stage that follows extraction — the flow jumps to
the final summary without ever attempting to remove the scratch directory,
contradicting the claim that every run removes it during cleanup. -/
theorem c5_counterexample_no_manifest_leaks_td :
    ((parse_flow_from_extract true false true true).tdRemovalAttempted = false)
    ∧ ((parse_flow_from_extract true false true true).reachedSummary = true) :=
  ⟨rfl, rfl⟩

/-- C5 (amended): the scratch directory is removed only on runs where every
stage after extraction succeeds; a fatal post-extraction failure exits via
the summary without removing it.  When removal is attempted its failure is
silently ignored — never fatal, and not logged (the emitted log does not
depend on the removal outcome) — while a failure to remove the downloaded
package file is logged as a warning. -/
theorem c5_cleanup_only_on_success (extractOk manifestFound rmTdOk rmPkgOk : Bool) :
    ((parse_flow_from_extract extractOk manifestFound rmTdOk rmPkgOk).tdRemovalAttempted
       = (extractOk && manifestFound))
    ∧ ((parse_flow_from_extract extractOk manifestFound rmTdOk rmPkgOk).tdRemoved
       = (extractOk && manifestFound && rmTdOk))
    ∧ ((parse_flow_from_extract extractOk manifestFound rmTdOk rmPkgOk).logs
       = (parse_flow_from_extract extractOk manifestFound true rmPkgOk).logs)
    ∧ ((parse_flow_from_extract extractOk manifestFound rmTdOk rmPkgOk).reachedSummary
       = true)
    ∧ ((parse_flow_from_extract true true false rmPkgOk).logs.contains
         ("WARN", "Could not remove temporary package") = !rmPkgOk) := by
  cases extractOk <;> cases manifestFound <;> cases rmTdOk <;> cases rmPkgOk <;>
    exact ⟨rfl, rfl, rfl, rfl, by decide⟩

/-- C6: on the failing input — a Fabric-installer download that fails with
a network or HTTP error — the error is caught inside `download_with_rich`,
which logs a warning and returns normally, so the guarding `except` in
`run_fabric_installer` never fires: the child installer process is still
invoked (on the missing jar) rather than skipped.  The rest of the claim
holds: nothing aborts, a non-zero child exit is logged as an error, and
control always returns so that installation of the manifest files
proceeds. -/
theorem c6_failed_download_still_invokes_child :
    ((run_fabric_installer false false false).childInvoked = true)
    ∧ ((run_fabric_installer false false false).proceededToInstall = true)
    ∧ ((run_fabric_installer false false false).logs.contains
         ("WARN", "Failed to receive 1 file") = true)
    ∧ ((run_fabric_installer false false false).logs.contains
         ("ERROR", "Fabric installer failed") = true)
    ∧ (∀ dlRaises dlFetchOk childExitZero : Bool,
        (run_fabric_installer dlRaises dlFetchOk childExitZero).proceededToInstall = true) := by
  refine ⟨by decide, by decide, by decide, by decide, ?_⟩
  intro dlRaises dlFetchOk childExitZero
  cases dlRaises <;> rfl

/-- C7: the URL of every manifest file descriptor is resolved exactly as
the claim words it — first element of a non-empty downloads list (its `url`
field when that element is an object, the element itself otherwise), then
the descriptor field `url` — and a descriptor for which neither form yields
a URL contributes no plan entry, with no possibility of an error. -/
theorem c7_url_resolution_matches_claim (manifest : JVal) (base_dest : String) :
    iter_manifest_files manifest base_dest
      = (jarrItems (jget manifest "files")).filterMap (fun f =>
          (resolve_url_claim f).map (fun url =>
            (url, os_path_join base_dest (lstrip_seps (manifest_rel f url))))) := by
  unfold iter_manifest_files
  refine List.filterMap_congr (fun f _ => ?_)
  unfold resolve_url_claim resolve_url
  exact pyOr_option _ (jget f "url")
    (fun url => (url, os_path_join base_dest (lstrip_seps (manifest_rel f url))))

/-- C8: when every destination produced from the manifest already exists
under the destination root, planning with `overwrite = false` keeps no
entry at all — the plan is empty and re-running performs no downloads. -/
theorem c8_fully_downloaded_empty_plan (manifest : JVal) (dest : String)
    (pathExists : String → Bool)
    (h : ∀ ut ∈ iter_manifest_files manifest dest, pathExists ut.2 = true) :
    (download_and_place_plan manifest dest false pathExists).1 = [] := by
  rw [download_and_place_plan, plan_go_false_fst]
  exact List.filter_eq_nil_iff.mpr (fun ut hm => by simp [h ut hm])

/-- C8 witness: the sample manifest against a filesystem where every path
exists yields an empty plan. -/
theorem c8_fully_downloaded_empty_plan_witness :
    (download_and_place_plan sample_manifest "/game" false (fun _ => true)).1 = [] :=
  c8_fully_downloaded_empty_plan sample_manifest "/game" (fun _ => true)
    (fun _ _ => rfl)

/-- C9: with no `overrides/` directory in the extracted archive,
`apply_overrides_with_rich` copies nothing, fails nothing, writes nothing
to the destination, and reports exactly one notice at a non-error
severity. -/
theorem c9_no_overrides_is_noop (dest : String) (copyOk : String → Bool) :
    ((apply_overrides_with_rich none dest copyOk).copied = 0)
    ∧ ((apply_overrides_with_rich none dest copyOk).failed = 0)
    ∧ ((apply_overrides_with_rich none dest copyOk).writes = [])
    ∧ ((apply_overrides_with_rich none dest copyOk).logs
        = [("COMMENT", "No overrides directory present")])
    ∧ ((apply_overrides_with_rich none dest copyOk).logs.all
        (fun e => !(is_error_level e.1)) = true) :=
  ⟨rfl, rfl, rfl, rfl, rfl⟩

lemma head_dropWhile_not (p : Char → Bool) (l : List Char) (c : Char)
    (h : (l.dropWhile p).head? = some c) : p c = false := by
  induction l with
  | nil => simp [List.dropWhile] at h
  | cons a t ih =>
      rw [List.dropWhile_cons] at h
      by_cases hp : p a
      · simp [hp] at h
        exact ih h
      · simp [hp] at h
        subst h
        simpa using hp

lemma getLast_dropWhile_ne_nil (p : Char → Bool) (l : List Char)
    (h : l.dropWhile p ≠ []) : (l.dropWhile p).getLast? = l.getLast? := by
  induction l with
  | nil => simp at h
  | cons a t ih =>
      rw [List.dropWhile_cons]
      by_cases hp : p a
      · rw [List.dropWhile_cons, if_pos hp] at h
        rw [if_pos hp, ih h]
        have ht : t ≠ [] := by
          intro he
          rw [he] at h
          simp [List.dropWhile] at h
        cases t with
        | nil => exact absurd rfl ht
        | cons b t2 => simp [List.getLast?_cons_cons]
      · rw [if_neg hp]

lemma py_strip_data_sublist (l : List Char) :
    List.Sublist (((l.dropWhile py_isspace).reverse.dropWhile py_isspace).reverse) l := by
  have h1 : List.Sublist ((l.dropWhile py_isspace).reverse.dropWhile py_isspace)
      (l.dropWhile py_isspace).reverse := List.dropWhile_sublist _
  have h2 := List.reverse_sublist.mpr h1
  rw [List.reverse_reverse] at h2
  exact h2.trans (List.dropWhile_sublist _)

lemma sanitize_name_no_bad_chars (s : String) :
    (sanitize_name s).data.all (fun c => !(bad_chars.contains c)) = true := by
  rw [List.all_eq_true]
  intro c hc
  have hc2 : c ∈ s.data.filter (fun c => !(bad_chars.contains c)) :=
    (py_strip_data_sublist (s.data.filter (fun c => !(bad_chars.contains c)))).mem hc
  exact (List.mem_filter.mp hc2).2

lemma py_strip_no_trailing (s : String) : no_trailing_space (py_strip s) = true := by
  show (((s.data.dropWhile py_isspace).reverse.dropWhile py_isspace).reverse.getLast?.all
      (fun c => !(py_isspace c))) = true
  rw [List.getLast?_reverse]
  rcases hm : ((s.data.dropWhile py_isspace).reverse.dropWhile py_isspace).head? with _ | c
  · rfl
  · have hc := head_dropWhile_not py_isspace _ _ hm
    simp [Option.all, hc]

lemma py_strip_no_leading (s : String) : no_leading_space (py_strip s) = true := by
  show ((((s.data.dropWhile py_isspace).reverse.dropWhile py_isspace).reverse.head?).all
      (fun c => !(py_isspace c))) = true
  rw [List.head?_reverse]
  by_cases h : (s.data.dropWhile py_isspace).reverse.dropWhile py_isspace = []
  · rw [h]
    rfl
  · rw [getLast_dropWhile_ne_nil py_isspace _ h, List.getLast?_reverse]
    rcases hm : (s.data.dropWhile py_isspace).head? with _ | c
    · rfl
    · have hc := head_dropWhile_not py_isspace _ _ hm
      simp [Option.all, hc]

/-- C10: for every version record the folder name built by
`build_display_name` contains none of the filesystem-reserved characters
that `sanitize_name` removes, and carries no leading or trailing
whitespace, so it is a single well-formed path component. -/
theorem c10_display_name_wellformed (version_number game_versions version_type : String) :
    ((build_display_name version_number game_versions version_type).data.all
        (fun c => !(bad_chars.contains c)) = true)
    ∧ (no_leading_space (build_display_name version_number game_versions version_type) = true)
    ∧ (no_trailing_space (build_display_name version_number game_versions version_type) = true) :=
  ⟨sanitize_name_no_bad_chars _, py_strip_no_leading _, py_strip_no_trailing _⟩

end OffInstaller
